import Mathlib

/-!
Verification development for the WinBins build-orchestration engine.

Each definition below is a shallow embedding of a function of the Python
source tree (file and symbol named in its doc comment).  External effects
(subprocess execution, the filesystem, `shutil.which`) are modelled by
explicit environment records of pure functions, and the sequence of
side-effecting calls a routine makes is returned as an explicit trace.
Python strings are modelled by Lean `String`; where Python lowercases a
string (`str.lower()`), the model works on the list of code points
(`strCodes`) and lowercases the ASCII range, which is the range exercised
by every identifier in the program.
-/

namespace WinBins

/-- Code points of a string (Python strings are sequences of code points). -/
def strCodes (s : String) : List Nat := s.toList.map Char.toNat

/-- ASCII lowercasing of one code point, the action of Python `str.lower()`
on the ASCII range. -/
def lowerCode (n : Nat) : Nat := if 65 ≤ n ∧ n ≤ 90 then n + 32 else n

/-- Lowercasing of a code-point sequence (model of `str.lower()`). -/
def lowerCodes (l : List Nat) : List Nat := l.map lowerCode

/-- Does `hay` start with `needle`? -/
def leadsWith : List Nat → List Nat → Bool
  | [], _ => true
  | _ :: _, [] => false
  | a :: as, b :: bs => a == b && leadsWith as bs

/-- Does `needle` occur contiguously inside `hay`?  (Model of Python
`needle in hay` on strings.) -/
def occursIn (needle : List Nat) : List Nat → Bool
  | [] => needle.isEmpty
  | b :: bs => leadsWith needle (b :: bs) || occursIn needle bs

/-- Rendering `str(p)` for a path given by its segments: segments joined by `/`
(the POSIX rendering used by `pathlib`). -/
def pathStr (p : List String) : String := String.intercalate "/" p

/-- Test `"release" not in str(p).lower()` from `WinBins.py` `find_artifact`. -/
def releaseAbsent (p : List String) : Bool :=
  ! occursIn (strCodes "release") (lowerCodes (strCodes (pathStr p)))

/-- The sort key of `WinBins.py` `find_artifact`:
`("release" not in str(p).lower(), len(str(p)))`, with the boolean mapped
to `0/1` so Python tuple order is numeric lexicographic order. -/
def sortKey (p : List String) : Nat × Nat :=
  ((if releaseAbsent p then 1 else 0), (pathStr p).length)

/-- Order on sort keys: Python tuple comparison (lexicographic). -/
def keyLe (a b : Nat × Nat) : Bool :=
  decide (a.1 < b.1) || (decide (a.1 = b.1) && decide (a.2 ≤ b.2))

/-- Insert into a key-sorted list, before the first element of
greater-or-equal key (stable insertion). -/
def insertSorted (key : α → Nat × Nat) (x : α) : List α → List α
  | [] => [x]
  | y :: ys => if keyLe (key x) (key y) then x :: y :: ys
               else y :: insertSorted key x ys

/-- Stable sort by key, the semantics of Python `list.sort(key=...)`. -/
def sortStable (key : α → Nat × Nat) : List α → List α
  | [] => []
  | x :: xs => insertSorted key x (sortStable key xs)

/-- Model of `WinBins.py` `WinToolsUpdater.find_artifact`, given the list of
candidate paths produced by `tool_path.rglob(exe_name)` in enumeration
order: sort by `("release" not in str(p).lower(), len(str(p)))` and take
the first; `None` when there is no candidate. -/
def find_artifact (candidates : List (List String)) : Option (List String) :=
  (sortStable sortKey candidates).head?

/-- Strict lexicographic order on code-point sequences — the order of
Python string comparison, used to state what a lexicographic tie-break
would return. -/
def codesLt : List Nat → List Nat → Bool
  | [], [] => false
  | [], _ :: _ => true
  | _ :: _, [] => false
  | a :: as, b :: bs =>
    if a < b then true else if b < a then false else codesLt as bs

theorem keyLe_iff (a b : Nat × Nat) :
    keyLe a b = true ↔ a.1 < b.1 ∨ (a.1 = b.1 ∧ a.2 ≤ b.2) := by
  simp [keyLe]

theorem keyLe_refl (a : Nat × Nat) : keyLe a a = true := by
  rw [keyLe_iff]; omega

theorem keyLe_total (a b : Nat × Nat) :
    keyLe a b = true ∨ keyLe b a = true := by
  rw [keyLe_iff, keyLe_iff]; omega

theorem keyLe_trans {a b c : Nat × Nat} (h1 : keyLe a b = true)
    (h2 : keyLe b c = true) : keyLe a c = true := by
  rw [keyLe_iff] at h1 h2 ⊢; omega

theorem sortStable_head_min (key : α → Nat × Nat) (l : List α)
    (h : l ≠ []) : ∃ c pre post, (sortStable key l).head? = some c ∧
      l = pre ++ c :: post ∧
      (∀ d ∈ pre, keyLe (key d) (key c) = false) ∧
      (∀ d ∈ l, keyLe (key c) (key d) = true) := by
  induction l with
  | nil => exact absurd rfl h
  | cons x xs ih =>
    cases xs with
    | nil =>
      refine ⟨x, [], [], rfl, rfl, by simp, ?_⟩
      intro d hd
      rw [List.mem_singleton] at hd
      subst hd
      exact keyLe_refl _
    | cons y ys =>
      obtain ⟨c, pre, post, hc, hdecomp, hpre, hmin⟩ := ih (by simp)
      have hsort : sortStable key (x :: y :: ys)
          = insertSorted key x (sortStable key (y :: ys)) := rfl
      cases hs : sortStable key (y :: ys) with
      | nil => rw [hs] at hc; simp at hc
      | cons a rest =>
        rw [hs] at hc
        simp only [List.head?] at hc
        injection hc with hac
        subst hac
        rw [hsort, hs]
        by_cases hk : keyLe (key x) (key a) = true
        · refine ⟨x, [], y :: ys, ?_, rfl, by simp, ?_⟩
          · simp [insertSorted, hk]
          · intro d hd
            rcases List.mem_cons.mp hd with h1 | h1
            · subst h1; exact keyLe_refl _
            · exact keyLe_trans hk (hmin d h1)
        · refine ⟨a, x :: pre, post, ?_, ?_, ?_, ?_⟩
          · simp [insertSorted, hk]
          · rw [List.cons_append, hdecomp]
          · intro d hd
            rcases List.mem_cons.mp hd with h1 | h1
            · rw [h1]
              simpa using hk
            · exact hpre d h1
          · intro d hd
            rcases List.mem_cons.mp hd with h1 | h1
            · rw [h1]
              rcases keyLe_total (key x) (key a) with ht | ht
              · exact absurd ht hk
              · exact ht
            · exact hmin d h1

/-- C6: both claimed tie-breaks fail on the code.  First, among two
release-marked candidates `find_artifact` returns the one with the
shorter path *string* (17 characters, 4 segments) over the one with fewer
path *segments* (2 segments, 26 characters).  Second, between two
candidates with exactly equal sort keys it returns the one enumerated
first, `release/z.exe`, although `release/a.exe` is lexicographically
smaller — the final tie-break is enumeration order, not lexicographic
order. -/
theorem c6_counterexample :
    (find_artifact [["release", "a", "b", "x.exe"],
        ["releasedirectorylong", "x.exe"]]
      = some ["release", "a", "b", "x.exe"] ∧
     releaseAbsent ["release", "a", "b", "x.exe"] = false ∧
     releaseAbsent ["releasedirectorylong", "x.exe"] = false ∧
     (["releasedirectorylong", "x.exe"] : List String).length
       < (["release", "a", "b", "x.exe"] : List String).length) ∧
    (find_artifact [["release", "z.exe"], ["release", "a.exe"]]
      = some ["release", "z.exe"] ∧
     sortKey ["release", "z.exe"] = sortKey ["release", "a.exe"] ∧
     codesLt (strCodes (pathStr ["release", "a.exe"]))
       (strCodes (pathStr ["release", "z.exe"])) = true) := by
  decide

/-- C6 (amended): `find_artifact` returns a candidate minimizing the key
(path lacks a release marker, path string length) — so a release-marked
candidate beats any unmarked one, and among release-marked candidates the
shortest path string, not the fewest path segments, wins — and every
candidate enumerated before the returned one has strictly greater key, so
candidates of equal key resolve to the earliest enumerated, not the
lexicographically least. -/
theorem c6_find_artifact_min (l : List (List String)) (h : l ≠ []) :
    ∃ c pre post, find_artifact l = some c ∧ l = pre ++ c :: post ∧
      (∀ d ∈ pre, keyLe (sortKey d) (sortKey c) = false) ∧
      (∀ d ∈ l, keyLe (sortKey c) (sortKey d) = true) ∧
      ((∃ r ∈ l, releaseAbsent r = false) → releaseAbsent c = false) := by
  obtain ⟨c, pre, post, hc, hdecomp, hpre, hmin⟩ :=
    sortStable_head_min sortKey l h
  refine ⟨c, pre, post, hc, hdecomp, hpre, hmin, ?_⟩
  rintro ⟨r, hr, hra⟩
  have hk := hmin r hr
  rw [keyLe_iff] at hk
  by_cases hcA : releaseAbsent c = true
  · exfalso
    simp [sortKey, hra, hcA] at hk
  · simpa using hcA

theorem c6_find_artifact_min_witness :
    ∃ c pre post,
      find_artifact [["release", "x.exe"], ["bin", "x.exe"]] = some c ∧
      [["release", "x.exe"], ["bin", "x.exe"]] = pre ++ c :: post ∧
      (∀ d ∈ pre, keyLe (sortKey d) (sortKey c) = false) ∧
      (∀ d ∈ [["release", "x.exe"], ["bin", "x.exe"]],
        keyLe (sortKey c) (sortKey d) = true) ∧
      ((∃ r ∈ [["release", "x.exe"], ["bin", "x.exe"]],
        releaseAbsent r = false) → releaseAbsent c = false) :=
  c6_find_artifact_min [["release", "x.exe"], ["bin", "x.exe"]] (by decide)

/-! ## Build systems and the builder factory
(`src/winbins/tools/base.py`, `src/winbins/builders/factory.py`) -/

/-- The `BuildSystem` enum from `src/winbins/tools/base.py`. -/
inductive BuildSystem where
  | msbuild
  | dotnet
  | cmake
  | make
  | custom
deriving DecidableEq

/-- The `.value` string of each `BuildSystem` member. -/
def BuildSystem.value : BuildSystem → String
  | .msbuild => "msbuild"
  | .dotnet => "dotnet"
  | .cmake => "cmake"
  | .make => "make"
  | .custom => "custom"

/-- The two concrete builder classes registered in
`BuilderFactory._builders`. -/
inductive BuilderKind where
  | msbuildBuilder
  | dotnetBuilder
deriving DecidableEq

/-- The `BuilderFactory._builders` lookup followed by construction
(`BuilderFactory.create`): only MSBUILD and DOTNET have registered
builder classes; other build systems yield `None`. -/
def BuilderFactory.create : BuildSystem → Option BuilderKind
  | .msbuild => some .msbuildBuilder
  | .dotnet => some .dotnetBuilder
  | _ => none

/-- The literal `mapping` dict inside `BuilderFactory.get_for_tool`,
keyed on the lowercased requirement's code points. -/
def requiresMapping (codes : List Nat) : Option BuildSystem :=
  if codes = strCodes "msbuild" then some .msbuild
  else if codes = strCodes "dotnet" then some .dotnet
  else none

/-- Model of `BuilderFactory.get_for_tool`: `mapping.get(requires.lower())`, then
`create`; `None` at either step yields `None`. -/
def BuilderFactory.get_for_tool (req : String) : Option BuilderKind :=
  match requiresMapping (lowerCodes (strCodes req)) with
  | none => none
  | some bs => BuilderFactory.create bs

/-- Module-level convenience `get_builder` from
`src/winbins/builders/factory.py`. -/
def get_builder (req : String) : Option BuilderKind :=
  BuilderFactory.get_for_tool req

theorem lowerCode_idem (n : Nat) : lowerCode (lowerCode n) = lowerCode n := by
  unfold lowerCode
  split_ifs <;> omega

theorem lowerCodes_idem (l : List Nat) :
    lowerCodes (lowerCodes l) = lowerCodes l := by
  induction l with
  | nil => rfl
  | cons a t ih =>
    simp only [lowerCodes, List.map_cons] at *
    rw [lowerCode_idem]
    exact List.cons_eq_cons.mpr ⟨rfl, ih⟩

/-- C8: backend lookup is case-insensitive — looking up the lowercase form
of `s` yields the same backend as looking up `s` — and any identifier
whose lowercase form is not a key of the registry mapping yields no
backend (`None`), never an error. -/
theorem c8_get_builder_case_insensitive (s sLower : String)
    (h : strCodes sLower = lowerCodes (strCodes s)) :
    get_builder sLower = get_builder s ∧
    (requiresMapping (lowerCodes (strCodes s)) = none →
      get_builder s = none) := by
  constructor
  · simp [get_builder, BuilderFactory.get_for_tool, h, lowerCodes_idem]
  · intro h2
    simp [get_builder, BuilderFactory.get_for_tool, h2]

theorem c8_get_builder_case_insensitive_witness :
    (get_builder "msbuild" = get_builder "MSBuild" ∧
      (requiresMapping (lowerCodes (strCodes "MSBuild")) = none →
        get_builder "MSBuild" = none)) ∧
    (get_builder "qmake" = get_builder "QMake" ∧
      (requiresMapping (lowerCodes (strCodes "QMake")) = none →
        get_builder "QMake" = none)) :=
  ⟨c8_get_builder_case_insensitive "MSBuild" "msbuild" (by decide),
   c8_get_builder_case_insensitive "QMake" "qmake" (by decide)⟩

/-! ## Tool configuration records (`src/winbins/tools/base.py`) -/

/-- The `ToolCategory` enum from `src/winbins/tools/base.py`. -/
inductive ToolCategory where
  | credential_access
  | enumeration
  | privilege_escalation
  | lateral_movement
  | persistence
  | collection
  | evasion
  | execution
  | command_control
  | network
  | utility
deriving DecidableEq

/-- The `.value` string of each `ToolCategory` member. -/
def ToolCategory.value : ToolCategory → String
  | .credential_access => "credential_access"
  | .enumeration => "enumeration"
  | .privilege_escalation => "privilege_escalation"
  | .lateral_movement => "lateral_movement"
  | .persistence => "persistence"
  | .collection => "collection"
  | .evasion => "evasion"
  | .execution => "execution"
  | .command_control => "command_control"
  | .network => "network"
  | .utility => "utility"

/-- Python `BuildSystem(s)` — lookup of an enum member by value; the
`ValueError` raised on an unknown value is modelled as `none`. -/
def buildSystemOfValue (s : String) : Option BuildSystem :=
  if s = "msbuild" then some .msbuild
  else if s = "dotnet" then some .dotnet
  else if s = "cmake" then some .cmake
  else if s = "make" then some .make
  else if s = "custom" then some .custom
  else none

/-- Python `ToolCategory(s)` — lookup of an enum member by value; the
`ValueError` raised on an unknown value is modelled as `none`. -/
def toolCategoryOfValue (s : String) : Option ToolCategory :=
  if s = "credential_access" then some .credential_access
  else if s = "enumeration" then some .enumeration
  else if s = "privilege_escalation" then some .privilege_escalation
  else if s = "lateral_movement" then some .lateral_movement
  else if s = "persistence" then some .persistence
  else if s = "collection" then some .collection
  else if s = "evasion" then some .evasion
  else if s = "execution" then some .execution
  else if s = "command_control" then some .command_control
  else if s = "network" then some .network
  else if s = "utility" then some .utility
  else none

/-- The `ToolConfig` dataclass from `src/winbins/tools/base.py`.
`env_vars` (a Python dict) is modelled as an association list. -/
structure ToolConfig where
  name : String
  repo : String
  build_cmd : List String
  output : String
  requires : String
  build_system : BuildSystem
  description : String
  category : ToolCategory
  tags : List String
  pre_build_cmd : Option (List String)
  post_build_cmd : Option (List String)
  additional_outputs : List String
  env_vars : List (String × String)
  platforms : List String
deriving DecidableEq

/-- The dictionary shape written by `ToolConfig.to_dict` and read by
`ToolConfig.from_dict`: `some v` means the key is present with value `v`,
`none` that the key is absent (`dict.get` then falls back to its
default).  `build_system` and `category` hold the enum value strings. -/
structure ToolDict where
  name : Option String := none
  repo : Option String := none
  build_cmd : Option (List String) := none
  output : Option String := none
  requires : Option String := none
  build_system : Option String := none
  description : Option String := none
  category : Option String := none
  tags : Option (List String) := none
  pre_build_cmd : Option (Option (List String)) := none
  post_build_cmd : Option (Option (List String)) := none
  additional_outputs : Option (List String) := none
  env_vars : Option (List (String × String)) := none
  platforms : Option (List String) := none
deriving DecidableEq

/-- Model of `ToolConfig.to_dict`: every key present, enum fields as `.value`. -/
def ToolConfig.to_dict (t : ToolConfig) : ToolDict :=
  { name := some t.name
    repo := some t.repo
    build_cmd := some t.build_cmd
    output := some t.output
    requires := some t.requires
    build_system := some t.build_system.value
    description := some t.description
    category := some t.category.value
    tags := some t.tags
    pre_build_cmd := some t.pre_build_cmd
    post_build_cmd := some t.post_build_cmd
    additional_outputs := some t.additional_outputs
    env_vars := some t.env_vars
    platforms := some t.platforms }

/-- Model of `ToolConfig.from_dict`: mandatory keys `repo`, `build_cmd`, `output`
(a Python `KeyError` on a missing one is modelled as `none`), defaults
for the rest, and by-value enum construction for `build_system` and
`category` (a `ValueError` is modelled as `none`). -/
def ToolConfig.from_dict (name : String) (d : ToolDict) : Option ToolConfig := do
  let bs ← buildSystemOfValue (d.build_system.getD "msbuild")
  let cat ← toolCategoryOfValue (d.category.getD "utility")
  let repo ← d.repo
  let build_cmd ← d.build_cmd
  let output ← d.output
  some { name := name
         repo := repo
         build_cmd := build_cmd
         output := output
         requires := d.requires.getD ""
         build_system := bs
         description := d.description.getD ""
         category := cat
         tags := d.tags.getD []
         pre_build_cmd := d.pre_build_cmd.getD none
         post_build_cmd := d.post_build_cmd.getD none
         additional_outputs := d.additional_outputs.getD []
         env_vars := d.env_vars.getD []
         platforms := d.platforms.getD ["windows"] }

theorem buildSystemOfValue_value (bs : BuildSystem) :
    buildSystemOfValue bs.value = some bs := by
  cases bs <;> rfl

theorem toolCategoryOfValue_value (c : ToolCategory) :
    toolCategoryOfValue c.value = some c := by
  cases c <;> rfl

/-- C9: serialization round-trip — rebuilding a `ToolConfig` from its own
dictionary form under its own name restores it field for field. -/
theorem c9_from_dict_to_dict (t : ToolConfig) :
    ToolConfig.from_dict t.name (ToolConfig.to_dict t) = some t := by
  obtain ⟨n, r, bc, o, rq, bs, de, ca, tg, pre, post, ao, ev, pl⟩ := t
  simp [ToolConfig.from_dict, ToolConfig.to_dict,
    buildSystemOfValue_value, toolCategoryOfValue_value]

/-- Round-trip evaluated at the catalog's `rubeus` entry. -/
def rubeusConfig : ToolConfig :=
  { name := "rubeus"
    repo := "https://github.com/GhostPack/Rubeus.git"
    build_cmd := ["msbuild", "Rubeus.sln", "/p:Configuration=Release"]
    output := "Rubeus/bin/Release/Rubeus.exe"
    requires := "msbuild"
    build_system := .msbuild
    description := "Kerberos interaction and abuse toolkit"
    category := .credential_access
    tags := ["kerberos", "ad", "tickets"]
    pre_build_cmd := none
    post_build_cmd := none
    additional_outputs := []
    env_vars := []
    platforms := ["windows"] }

theorem c9_from_dict_to_dict_witness :
    ToolConfig.from_dict rubeusConfig.name (ToolConfig.to_dict rubeusConfig)
      = some rubeusConfig :=
  c9_from_dict_to_dict rubeusConfig

/-! ## Build backends (`src/winbins/builders/base.py`, `msbuild.py`,
`dotnet.py`) -/

/-- The `BuildResult` dataclass from `src/winbins/builders/base.py`, with
`Path` values as strings. -/
structure BuildResultM where
  success : Bool
  output_path : Option String := none
  stdout : String := ""
  stderr : String := ""
  return_code : Int := 0
  error_message : String := ""
  artifacts : List String := []
deriving DecidableEq

/-- Outcome of one `subprocess.run` call: normal completion, a missing
executable (`FileNotFoundError`), or another `SubprocessError`. -/
inductive SubprocessOutcome where
  | completed (returncode : Int) (stdout stderr : String)
  | notFound
  | subprocessError (msg : String)
deriving DecidableEq

/-- Model of `Builder.run_command` from `src/winbins/builders/base.py`: wrap a
subprocess outcome into a `BuildResult`; on completion success is exactly
"exit code zero" and, when capturing, stdout/stderr are stored in full. -/
def run_command (outcome : SubprocessOutcome) (cmd : List String)
    (capture : Bool) : BuildResultM :=
  match outcome with
  | .completed rc out err =>
      { success := decide (rc = 0)
        stdout := if capture then out else ""
        stderr := if capture then err else ""
        return_code := rc }
  | .notFound =>
      { success := false
        error_message := "Command not found: " ++ cmd.headD ""
        return_code := -1 }
  | .subprocessError msg =>
      { success := false
        error_message := msg
        return_code := -1 }

/-- Host environment seen by a builder: `shutil.which` resolvability, the
outcome of each subprocess invocation, and the set of existing file
paths. -/
structure BuildEnv where
  which : String → Bool
  run : List String → SubprocessOutcome
  fs : String → Bool

/-- Join `source_path / output_path` (POSIX join used by `pathlib`). -/
def pathJoin (a b : String) : String := a ++ "/" ++ b

/-- The `build` method shared, token for token, by
`MSBuildBuilder.build` (`executableName = "msbuild"`) and
`DotNetBuilder.build` (`executableName = "dotnet"`): availability check,
`run_command` on the build command, then a bare existence check of
`source_path / output_path` — on absence it returns a failure result
directly, with no search of any kind. -/
def backendBuild (executableName : String) (env : BuildEnv)
    (source_path : String) (build_cmd : List String)
    (output_path : String) : BuildResultM :=
  if !(env.which executableName) then
    { success := false
      error_message := executableName ++ " not found in PATH" }
  else
    let result := run_command (env.run build_cmd) build_cmd true
    if !result.success then result
    else
      let full_output_path := pathJoin source_path output_path
      if !(env.fs full_output_path) then
        { success := false
          error_message := "Build artifact not found: " ++ full_output_path
          stdout := result.stdout
          stderr := result.stderr }
      else
        { result with
            success := true
            output_path := some full_output_path
            artifacts := [full_output_path] }

/-- Model of `MSBuildBuilder.build`. -/
def MSBuildBuilder.build : BuildEnv → String → List String → String →
    BuildResultM := backendBuild "msbuild"

/-- Model of `DotNetBuilder.build`. -/
def DotNetBuilder.build : BuildEnv → String → List String → String →
    BuildResultM := backendBuild "dotnet"

/-- Splitting a character list on a separator (always non-empty output,
like Python `str.split`). -/
def splitOnChar (sep : Char) : List Char → List (List Char)
  | [] => [[]]
  | c :: cs =>
    match splitOnChar sep cs with
    | [] => if c = sep then [[], []] else [[c]]
    | r :: rs => if c = sep then [] :: r :: rs else (c :: r) :: rs

/-- Final path segment (the artifact's base name). -/
def baseName (s : String) : String :=
  String.mk ((splitOnChar '/' s.data).getLastD s.data)

/-- Host on which the C1 scenario is evaluated: every executable
resolvable, the build command exits zero, and the only file under the
working copy is a same-base-name artifact away from the declared path. -/
def c1Env : BuildEnv :=
  { which := fun _ => true
    run := fun _ => .completed 0 "" ""
    fs := fun p => decide (p = "/build/tool/bin/Release/Tool.exe") }

/-- C1: the claimed fallback does not exist in the backends.  The build
command exits zero, the declared output `Tool.exe` is absent at the
working-copy root, and a candidate with the same base name exists under
the working copy — yet `MSBuildBuilder.build` returns a failure with no
artifact instead of the candidate. -/
theorem c1_counterexample :
    (MSBuildBuilder.build c1Env "/build/tool" ["msbuild", "Tool.sln"]
      "Tool.exe").success = false ∧
    (MSBuildBuilder.build c1Env "/build/tool" ["msbuild", "Tool.sln"]
      "Tool.exe").output_path = none ∧
    c1Env.fs (pathJoin "/build/tool" "Tool.exe") = false ∧
    c1Env.fs "/build/tool/bin/Release/Tool.exe" = true ∧
    baseName "/build/tool/bin/Release/Tool.exe" = baseName "Tool.exe" := by
  decide

/-- C1 (amended): on a resolved backend, when the build command succeeds
but the declared output path does not exist relative to the working copy,
`build` fails immediately with an artifact-not-found result and locates
nothing — no recursive search by base name is performed. -/
theorem c1_backend_no_fallback (exe : String) (env : BuildEnv)
    (sp : String) (cmd : List String) (out : String)
    (hav : env.which exe = true)
    (hrun : (run_command (env.run cmd) cmd true).success = true)
    (habs : env.fs (pathJoin sp out) = false) :
    backendBuild exe env sp cmd out =
      { success := false
        error_message := "Build artifact not found: " ++ pathJoin sp out
        stdout := (run_command (env.run cmd) cmd true).stdout
        stderr := (run_command (env.run cmd) cmd true).stderr } := by
  unfold backendBuild
  simp [hav, hrun, habs]

theorem c1_backend_no_fallback_witness :
    backendBuild "msbuild" c1Env "/build/tool" ["msbuild", "Tool.sln"]
        "Tool.exe" =
      { success := false
        error_message := "Build artifact not found: "
          ++ pathJoin "/build/tool" "Tool.exe"
        stdout := (run_command (c1Env.run ["msbuild", "Tool.sln"])
          ["msbuild", "Tool.sln"] true).stdout
        stderr := (run_command (c1Env.run ["msbuild", "Tool.sln"])
          ["msbuild", "Tool.sln"] true).stderr } :=
  c1_backend_no_fallback "msbuild" c1Env "/build/tool"
    ["msbuild", "Tool.sln"] "Tool.exe" (by decide) (by decide) (by decide)

/-! ## Diagnostic output capture and surfacing
(`src/winbins/builders/base.py` `run_command`; `src/WinBins.py`
`build_and_copy`) -/

/-- A string of `n` newline characters, hence `n + 1` lines. -/
def manyNl (n : Nat) : String := String.mk (List.replicate n '\n')

/-- Python `str.strip()` (ASCII whitespace at both ends). -/
def pyStrip (s : String) : String := s.trim

/-- Python `str.splitlines()` restricted to `\n`-separated text with no
trailing newline, the shape produced by `pyStrip`: empty string gives no
lines, otherwise split on the newline character. -/
def pySplitLines (s : String) : List String :=
  if s.data = [] then []
  else (splitOnChar '\x0a' s.data).map String.mk

/-- Last `n` elements of a list — Python `l[-n:]`. -/
def lastN (n : Nat) (l : List α) : List α := l.drop (l.length - n)

/-- Diagnostic line surfaced by `WinBins.py` `build_and_copy` on a failed
build: `"\n".join(out.strip().splitlines()[-40:])`. -/
def buildFailTail (out : String) : String :=
  String.intercalate "\n" (lastN 40 (pySplitLines (pyStrip out)))

/-- C7: the claim is false at the capture site — `Builder.run_command`
stores the complete stdout of a failed invocation in the failure result,
so no fixed bound on the number of captured lines exists. -/
theorem count_manyNl (n : Nat) : (manyNl n).data.count '\x0a' = n :=
  List.count_replicate_self _ _

theorem c7_counterexample :
    ¬ ∃ bound : Nat, ∀ out : String,
      ((run_command (.completed 1 out "") ["msbuild"] true).stdout).data.count
        '\x0a' ≤ bound := by
  rintro ⟨bound, h⟩
  have h2 := h (manyNl (bound + 1))
  have h3 : (run_command (.completed 1 (manyNl (bound + 1)) "")
      ["msbuild"] true).stdout = manyNl (bound + 1) := rfl
  rw [h3, count_manyNl] at h2
  omega

/-- C7 (amended): the failure `BuildResult` built by `run_command` keeps
the full, untruncated stdout; only the legacy script's user-surfaced
diagnostic is truncated, to a tail of at most 40 lines. -/
theorem c7_capture_full_surface_bounded (rc : Int) (out err : String)
    (cmd : List String) :
    (run_command (.completed rc out err) cmd true).stdout = out ∧
    (lastN 40 (pySplitLines (pyStrip out))).length ≤ 40 := by
  constructor
  · rfl
  · unfold lastN
    rw [List.length_drop]
    omega

theorem c7_capture_full_surface_bounded_witness :
    (run_command (.completed 1 (manyNl 50) "") ["msbuild"] true).stdout
        = manyNl 50 ∧
    (lastN 40 (pySplitLines (pyStrip (manyNl 50)))).length ≤ 40 :=
  c7_capture_full_surface_bounded 1 (manyNl 50) "" ["msbuild"]

/-! ## Git operations (`src/winbins/git_ops.py`) -/

/-- The `GitResult` dataclass from `src/winbins/git_ops.py`. -/
structure GitResultM where
  success : Bool
  output : String := ""
  error : String := ""
  return_code : Int := 0
deriving DecidableEq

/-- Host environment seen by `GitOperations`: the result of each `git`
invocation and existence of filesystem paths. -/
structure GitEnv where
  run : List String → GitResultM
  pathExists : String → Bool

/-- Full command line built by `GitOperations._run_git`:
`["git"] + args`. -/
def gitCmd (args : List String) : List String := "git" :: args

/-- Model of `GitOperations._run_git`: run the command, return its result
and record the invocation. -/
def run_git (env : GitEnv) (args : List String) :
    GitResultM × List (List String) :=
  (env.run (gitCmd args), [gitCmd args])

/-- Model of `GitOperations.fetch`. -/
def GitOperations.fetch (env : GitEnv) (repoPath : String) (remote : String)
    (allRemotes : Bool) : GitResultM × List (List String) :=
  run_git env (["-C", repoPath, "fetch"]
    ++ (if allRemotes then ["--all"] else [remote]))

/-- Model of `GitOperations.reset`. -/
def GitOperations.reset (env : GitEnv) (repoPath target : String)
    (hard : Bool) : GitResultM × List (List String) :=
  run_git env (["-C", repoPath, "reset"]
    ++ (if hard then ["--hard"] else []) ++ [target])

/-- Model of `GitOperations.clean` (defaults `force`, `directories`,
`ignored` all true). -/
def GitOperations.clean (env : GitEnv) (repoPath : String)
    (force directories ignored : Bool) : GitResultM × List (List String) :=
  run_git env (["-C", repoPath, "clean"]
    ++ (if force then ["-f"] else [])
    ++ (if directories then ["-d"] else [])
    ++ (if ignored then ["-x"] else []))

/-- Model of `GitOperations.clone` (with the `depth`/`recursive` options
at their defaults, as `clone_or_update` calls it). -/
def GitOperations.clone (env : GitEnv) (repoUrl targetPath : String)
    (branch : Option String) : GitResultM × List (List String) :=
  run_git env (["clone", repoUrl, targetPath]
    ++ (match branch with | some b => ["-b", b] | none => []))

/-- Model of `GitOperations.is_repo`: `git -C <path> rev-parse --git-dir`
succeeds. -/
def GitOperations.is_repo (env : GitEnv) (path : String) :
    Bool × List (List String) :=
  let (r, t) := run_git env ["-C", path, "rev-parse", "--git-dir"]
  (r.success, t)

/-- Reset target chosen by `clone_or_update`:
`f"origin/{branch}" if branch else "origin/HEAD"`. -/
def resetTarget : Option String → String
  | some b => "origin/" ++ b
  | none => "origin/HEAD"

/-- Model of `GitOperations.clone_or_update`: when the target exists and
is a repository, fetch all remotes, hard-reset to the target ref, then
clean, stopping at (and returning) the first failing step; otherwise
clone.  The second component records every `git` command run, in order. -/
def GitOperations.clone_or_update (env : GitEnv)
    (repoUrl targetPath : String) (branch : Option String) :
    GitResultM × List (List String) :=
  if env.pathExists targetPath then
    let (isrepo, t0) := GitOperations.is_repo env targetPath
    if isrepo then
      let (fres, t1) := GitOperations.fetch env targetPath "origin" true
      if !fres.success then (fres, t0 ++ t1)
      else
        let (rres, t2) := GitOperations.reset env targetPath
          (resetTarget branch) true
        if !rres.success then (rres, t0 ++ t1 ++ t2)
        else
          let (cres, t3) := GitOperations.clean env targetPath true true true
          (cres, t0 ++ t1 ++ t2 ++ t3)
    else
      let (cres, tc) := GitOperations.clone env repoUrl targetPath branch
      (cres, t0 ++ tc)
  else
    let (cres, tc) := GitOperations.clone env repoUrl targetPath branch
    (cres, tc)

/-- C2: for a sync of an existing recognized repository the executed
steps are exactly probe, fetch of all remotes, hard reset to
`origin/<branch>` (or `origin/HEAD`), clean of untracked and ignored
files, in that order; the sequence stops after the first failing step and
that step's result is the one returned. -/
theorem c2_update_sequence (env : GitEnv) (repoUrl targetPath : String)
    (branch : Option String)
    (hex : env.pathExists targetPath = true)
    (hrepo : (env.run
      (gitCmd ["-C", targetPath, "rev-parse", "--git-dir"])).success
        = true) :
    GitOperations.clone_or_update env repoUrl targetPath branch =
      (if (env.run (gitCmd ["-C", targetPath, "fetch", "--all"])).success
          = false then
        (env.run (gitCmd ["-C", targetPath, "fetch", "--all"]),
         [gitCmd ["-C", targetPath, "rev-parse", "--git-dir"],
          gitCmd ["-C", targetPath, "fetch", "--all"]])
      else if (env.run (gitCmd ["-C", targetPath, "reset", "--hard",
          resetTarget branch])).success = false then
        (env.run (gitCmd ["-C", targetPath, "reset", "--hard",
          resetTarget branch]),
         [gitCmd ["-C", targetPath, "rev-parse", "--git-dir"],
          gitCmd ["-C", targetPath, "fetch", "--all"],
          gitCmd ["-C", targetPath, "reset", "--hard",
            resetTarget branch]])
      else
        (env.run (gitCmd ["-C", targetPath, "clean", "-f", "-d", "-x"]),
         [gitCmd ["-C", targetPath, "rev-parse", "--git-dir"],
          gitCmd ["-C", targetPath, "fetch", "--all"],
          gitCmd ["-C", targetPath, "reset", "--hard",
            resetTarget branch],
          gitCmd ["-C", targetPath, "clean", "-f", "-d", "-x"]])) := by
  unfold GitOperations.clone_or_update GitOperations.is_repo
    GitOperations.fetch GitOperations.reset GitOperations.clean run_git
  simp only [hex, if_true, hrepo]
  by_cases hf : (env.run
      (gitCmd ["-C", targetPath, "fetch", "--all"])).success = false
  · simp [hf]
  · by_cases hr : (env.run (gitCmd ["-C", targetPath, "reset", "--hard",
        resetTarget branch])).success = false
    · simp [hf, hr]
    · simp [hf, hr]

/-- Host used to instantiate C2: everything exists and every git command
succeeds except the hard reset. -/
def c2Env : GitEnv :=
  { run := fun c =>
      if c = gitCmd ["-C", "/build/t", "reset", "--hard", "origin/HEAD"]
      then { success := false, error := "reset failed" }
      else { success := true }
    pathExists := fun _ => true }

theorem c2_update_sequence_witness :
    GitOperations.clone_or_update c2Env "https://x/r.git" "/build/t" none =
      ({ success := false, error := "reset failed" },
       [gitCmd ["-C", "/build/t", "rev-parse", "--git-dir"],
        gitCmd ["-C", "/build/t", "fetch", "--all"],
        gitCmd ["-C", "/build/t", "reset", "--hard", "origin/HEAD"]]) := by
  rw [c2_update_sequence c2Env "https://x/r.git" "/build/t" none
    (by decide) (by decide)]
  decide

/-! ## Orchestrator (`src/winbins/core.py` `WinToolsUpdater`) -/

/-- One observable side-effecting call made by the orchestrator.  `log`,
`probe` (a `shutil.which` lookup) and `statPath` (a `Path.exists` test)
are read-only; `gitSync` (the whole `GitOperations.clone_or_update`
call), `backendRun` (a builder's `build`), `copyFile` and `runCmd`
(direct invocation of a build command) touch the network or the
filesystem. -/
inductive Effect where
  | log (level msg : String)
  | probe (tool : String)
  | statPath (path : String)
  | gitSync (url path : String) (branch : Option String)
  | backendRun (exe path : String) (cmd : List String) (out : String)
  | copyFile (src dst : String)
  | runCmd (cmd : List String) (cwd : String)
deriving DecidableEq

/-- Does an effect mutate the network or filesystem? -/
def mutatingEffect : Effect → Bool
  | .gitSync _ _ _ => true
  | .backendRun _ _ _ _ => true
  | .copyFile _ _ => true
  | .runCmd _ _ => true
  | _ => false

/-- Is an effect a structured-backend build invocation? -/
def isBackendRun : Effect → Bool
  | .backendRun _ _ _ _ => true
  | _ => false

/-- Host environment and collaborator state seen by `WinToolsUpdater`:
`shutil.which`, the tool registry and the legacy `TOOLS` dict, the
outcome of git synchronization, `Path.exists`, subprocess outcomes for
builder commands, the exit status of directly run commands, and the
success of artifact copies. -/
structure CoreEnv where
  which : String → Bool
  registry : String → Option ToolConfig
  registryNames : List String
  legacy : String → Option ToolDict
  gitOk : String → String → Option String → Bool
  pathExists : String → Bool
  runOutcome : List String → SubprocessOutcome
  runCmdOk : List String → Bool
  copyOk : String → String → Bool
  outputDir : String
  buildDir : String

/-- Executable probed by each builder's `is_available`. -/
def BuilderKind.executable : BuilderKind → String
  | .msbuildBuilder => "msbuild"
  | .dotnetBuilder => "dotnet"

/-- Model of `WinToolsUpdater.run_cmd`: run the command in `cwd`, log on
failure, report the exit status as a boolean. -/
def WinToolsUpdater.run_cmd (env : CoreEnv) (cmd : List String)
    (cwd : String) : Bool × List Effect :=
  if env.runCmdOk cmd then (true, [.runCmd cmd cwd])
  else (false, [.runCmd cmd cwd,
    .log "ERROR" ("Command failed: " ++ String.intercalate " " cmd)])

/-- Model of `WinToolsUpdater.check_dependencies`: an absent or empty
`requires` entry is vacuously satisfied; otherwise resolve it with
`shutil.which` and log an error when unresolved. -/
def check_dependencies (env : CoreEnv) (toolName : String)
    (cfg : ToolDict) : Bool × List Effect :=
  match cfg.requires with
  | none => (true, [])
  | some r =>
    if r = "" then (true, [])
    else if env.which r then (true, [.probe r])
    else (false, [.probe r,
      .log "ERROR" ("Missing dependency for " ++ toolName ++ ": " ++ r)])

/-- Model of `WinToolsUpdater.clone_or_update`: derive the tool path
under the build directory, log, delegate to git, and return the path on
success.  The git call (fetch/reset/clean or clone) is one `gitSync`
effect here; its internals are the subject of `c2_update_sequence`. -/
def WinToolsUpdater.clone_or_update (env : CoreEnv)
    (toolName repoUrl : String) (branch : Option String) :
    Option String × List Effect :=
  let toolPath := pathJoin env.buildDir toolName
  let banner := if env.pathExists toolPath
    then "Updating " ++ toolName ++ "..." else "Cloning " ++ toolName ++ "..."
  if env.gitOk repoUrl toolPath branch then
    (some toolPath,
     [.statPath toolPath, .log "INFO" banner, .gitSync repoUrl toolPath branch])
  else
    (none,
     [.statPath toolPath, .log "INFO" banner, .gitSync repoUrl toolPath branch,
      .log "ERROR" "Git operation failed"])

/-- Direct-invocation branch of `build_tool` (`# Fallback to direct
command execution`): run the build command in the working copy, then test
the declared output path for existence verbatim, then copy it to the
output directory. -/
def build_tool_fallback (env : CoreEnv) (toolName toolPath : String)
    (bc : List String) (out : String) (logs0 : List Effect) :
    Bool × List Effect :=
  let (ok, e1) := WinToolsUpdater.run_cmd env bc toolPath
  if !ok then (false, logs0 ++ e1)
  else
    let outPath := pathJoin toolPath out
    if !(env.pathExists outPath) then
      (false, logs0 ++ e1 ++ [.statPath outPath,
        .log "ERROR" ("Build artifact not found: " ++ outPath)])
    else
      let dest := pathJoin env.outputDir (baseName outPath)
      (true, logs0 ++ e1 ++ [.statPath outPath, .copyFile outPath dest,
        .log "SUCCESS" ("Built " ++ toolName ++ " -> " ++ dest)])

/-- Model of `WinToolsUpdater.build_tool`.  The mandatory dictionary keys
`build_cmd` and `output` are read with `getD` defaults; in Python a
missing one raises `KeyError`, and every catalog entry supplies both.
With a resolved and available builder, delegate to the backend's `build`
(recorded as one `backendRun` effect) and copy its artifact; otherwise
fall back to direct invocation of the build command followed by a bare
existence test of the declared output path. -/
def build_tool (env : CoreEnv) (toolName : String) (cfg : ToolDict)
    (toolPath : String) : Bool × List Effect :=
  let logs0 : List Effect := [.log "INFO" ("Building " ++ toolName ++ "...")]
  let bc := cfg.build_cmd.getD []
  let out := cfg.output.getD ""
  match get_builder (cfg.requires.getD "msbuild") with
  | some bk =>
    if env.which bk.executable then
      let bEnv : BuildEnv :=
        { which := env.which, run := env.runOutcome, fs := env.pathExists }
      let result := backendBuild bk.executable bEnv toolPath bc out
      let logs1 := logs0 ++ [.probe bk.executable,
        .backendRun bk.executable toolPath bc out]
      if !result.success then
        (false, logs1 ++ [.log "ERROR" ("Build failed: " ++ result.error_message)])
      else
        match result.output_path with
        | some p =>
          let dest := pathJoin env.outputDir (baseName p)
          if env.copyOk p dest then
            (true, logs1 ++ [.copyFile p dest,
              .log "SUCCESS" ("Built " ++ toolName ++ " -> " ++ dest)])
          else
            (false, logs1 ++ [.copyFile p dest,
              .log "ERROR" ("Failed to copy artifact to " ++ dest)])
        | none => (false, logs1)
    else
      build_tool_fallback env toolName toolPath bc out logs0
  | none =>
    build_tool_fallback env toolName toolPath bc out logs0

/-- Tool configuration resolution at the head of
`WinToolsUpdater.update_tool`: the registry first (as `to_dict`), then
the legacy `TOOLS` dict. -/
def configOf (env : CoreEnv) (toolName : String) : Option ToolDict :=
  match env.registry toolName with
  | some t => some (ToolConfig.to_dict t)
  | none => env.legacy toolName

/-- Pipeline of `WinToolsUpdater.update_tool` after configuration lookup:
dependency gate, then sync, then build, each failure stopping the run. -/
def update_tool_cfg (env : CoreEnv) (toolName : String) (cfg : ToolDict)
    (branch : Option String) : Bool × List Effect :=
  let (depOk, e1) := check_dependencies env toolName cfg
  if !depOk then (false, e1)
  else
    let (pathOpt, e2) :=
      WinToolsUpdater.clone_or_update env toolName (cfg.repo.getD "") branch
    match pathOpt with
    | none => (false, e1 ++ e2)
    | some tp =>
      let (ok, e3) := build_tool env toolName cfg tp
      (ok, e1 ++ e2 ++ e3)

/-- Model of `WinToolsUpdater.update_tool`: resolve the configuration,
report an unknown tool, otherwise run the per-tool pipeline. -/
def update_tool (env : CoreEnv) (toolName : String)
    (branch : Option String) : Bool × List Effect :=
  match configOf env toolName with
  | some cfg => update_tool_cfg env toolName cfg branch
  | none => (false, [.log "ERROR" ("Unknown tool: " ++ toolName)])

/-- Insertion into the Python `results` dict: overwrite in place when the
key exists, else append. -/
def dictInsert : List (String × Bool) → String → Bool →
    List (String × Bool)
  | [], k, v => [(k, v)]
  | (a, b) :: t, k, v =>
    if a = k then (a, v) :: t else (a, b) :: dictInsert t k v

/-- Lookup in the `results` dict. -/
def lookupB : List (String × Bool) → String → Option Bool
  | [], _ => none
  | (a, b) :: t, n => if a = n then some b else lookupB t n

/-- Banner logged by `update_all` before each tool (separator lines
elided). -/
def procLogs (toolName : String) : List Effect :=
  [.log "INFO" ("Processing: " ++ toolName)]

/-- Loop of `update_all` over the requested names, threading the results
dict and the effect trace. -/
def update_all_go (env : CoreEnv) (branch : Option String) :
    List String → List (String × Bool) → List Effect →
    List (String × Bool) × List Effect
  | [], acc, tr => (acc, tr)
  | n :: ns, acc, tr =>
    let (s, e) := update_tool env n branch
    update_all_go env branch ns (dictInsert acc n s)
      (tr ++ procLogs n ++ e)

/-- Model of `WinToolsUpdater.update_all`: iterate `update_tool` over the
requested tools (or all registered tools), collecting one result per
name. -/
def update_all (env : CoreEnv) (branch : Option String)
    (tools : Option (List String)) : List (String × Bool) × List Effect :=
  let names := match tools with | some ts => ts | none => env.registryNames
  update_all_go env branch names [] []

theorem lookupB_dictInsert (d : List (String × Bool)) (k n : String)
    (v : Bool) : lookupB (dictInsert d k v) n
      = if n = k then some v else lookupB d n := by
  induction d with
  | nil =>
    by_cases h : n = k
    · simp [dictInsert, lookupB, h]
    · simp [dictInsert, lookupB, h, Ne.symm h]
  | cons p t ih =>
    obtain ⟨a, b⟩ := p
    by_cases hak : a = k
    · subst hak
      by_cases han : a = n
      · subst han
        simp [dictInsert, lookupB]
      · simp [dictInsert, lookupB, han, Ne.symm han]
    · by_cases han : a = n
      · subst han
        simp [dictInsert, lookupB, hak, Ne.symm hak]
      · simp [dictInsert, lookupB, hak, han, ih]

theorem update_all_go_fst (env : CoreEnv) (branch : Option String)
    (ns : List String) (acc : List (String × Bool)) (tr : List Effect)
    (n : String) : lookupB (update_all_go env branch ns acc tr).1 n
      = if n ∈ ns then some (update_tool env n branch).1
        else lookupB acc n := by
  induction ns generalizing acc tr with
  | nil => simp [update_all_go]
  | cons m ms ih =>
    simp only [update_all_go]
    rw [ih]
    by_cases hn : n ∈ ms
    · simp [hn]
    · by_cases hm : n = m
      · subst hm
        simp [hn, lookupB_dictInsert]
      · simp [hn, hm, lookupB_dictInsert]

theorem update_all_go_snd (env : CoreEnv) (branch : Option String)
    (ns : List String) (acc : List (String × Bool)) (tr : List Effect) :
    (update_all_go env branch ns acc tr).2
      = tr ++ ns.flatMap
          (fun n => procLogs n ++ (update_tool env n branch).2) := by
  induction ns generalizing acc tr with
  | nil => simp [update_all_go]
  | cons m ms ih =>
    simp only [update_all_go]
    rw [ih]
    simp [List.append_assoc]

/-- C3: a batch run over a request list computes, for each requested
name, exactly the result of that name's own pipeline (`update_tool`) —
independent of every other requested tool and of any failure among them —
returns an entry for each requested name and none for others, and its
side-effect trace is the concatenation, in request order, of each name's
own pipeline trace. -/
theorem c3_update_all_batch (env : CoreEnv) (branch : Option String)
    (ts : List String) :
    (∀ n, lookupB (update_all env branch (some ts)).1 n
      = if n ∈ ts then some (update_tool env n branch).1 else none) ∧
    (update_all env branch (some ts)).2
      = ts.flatMap (fun n => procLogs n ++ (update_tool env n branch).2) := by
  constructor
  · intro n
    show lookupB (update_all_go env branch ts [] []).1 n = _
    rw [update_all_go_fst]
    simp [lookupB]
  · show (update_all_go env branch ts [] []).2 = _
    rw [update_all_go_snd]
    simp

/-- Demonstration host: one registered tool, everything available and
succeeding. -/
def demoEnv : CoreEnv :=
  { which := fun _ => true
    registry := fun n => if n = "rubeus" then some rubeusConfig else none
    registryNames := ["rubeus"]
    legacy := fun _ => none
    gitOk := fun _ _ _ => true
    pathExists := fun _ => false
    runOutcome := fun _ => .completed 0 "" ""
    runCmdOk := fun _ => true
    copyOk := fun _ _ => true
    outputDir := "./binaries"
    buildDir := "./build" }

theorem c3_update_all_batch_witness :
    (∀ n, lookupB (update_all demoEnv none (some ["rubeus", "ghost"])).1 n
      = if n ∈ ["rubeus", "ghost"]
        then some (update_tool demoEnv n none).1 else none) ∧
    (update_all demoEnv none (some ["rubeus", "ghost"])).2
      = (["rubeus", "ghost"] : List String).flatMap
          (fun n => procLogs n ++ (update_tool demoEnv n none).2) :=
  c3_update_all_batch demoEnv none ["rubeus", "ghost"]

/-- C4: when a tool's configured requirement is set and does not resolve
on the search path, the run fails at the dependency stage and its trace
contains no network or filesystem mutation — no git sync, no backend
build, no direct command, no copy. -/
theorem c4_dependency_gate (env : CoreEnv) (toolName : String)
    (branch : Option String) (cfg : ToolDict) (r : String)
    (hcfg : configOf env toolName = some cfg)
    (hr : cfg.requires = some r) (hne : r ≠ "")
    (hw : env.which r = false) :
    (update_tool env toolName branch).1 = false ∧
    ∀ e ∈ (update_tool env toolName branch).2, mutatingEffect e = false := by
  have h1 : update_tool env toolName branch
      = update_tool_cfg env toolName cfg branch := by
    unfold update_tool
    rw [hcfg]
  rw [h1]
  unfold update_tool_cfg check_dependencies
  rw [hr]
  simp [hne, hw, mutatingEffect]

/-- Host for the C4 scenario: `shutil.which` resolves nothing. -/
def c4Env : CoreEnv := { demoEnv with which := fun _ => false }

theorem c4_dependency_gate_witness :
    (update_tool c4Env "rubeus" none).1 = false ∧
    ∀ e ∈ (update_tool c4Env "rubeus" none).2, mutatingEffect e = false :=
  c4_dependency_gate c4Env "rubeus" none (ToolConfig.to_dict rubeusConfig)
    "msbuild" (by decide) (by decide) (by decide) (by decide)

theorem build_tool_no_builder (env : CoreEnv) (toolName : String)
    (cfg : ToolDict) (toolPath : String)
    (hnb : get_builder (cfg.requires.getD "msbuild") = none) :
    build_tool env toolName cfg toolPath
      = build_tool_fallback env toolName toolPath (cfg.build_cmd.getD [])
          (cfg.output.getD "")
          [.log "INFO" ("Building " ++ toolName ++ "...")] := by
  unfold build_tool
  rw [hnb]

theorem build_tool_fallback_fst (env : CoreEnv)
    (toolName toolPath : String) (bc : List String) (out : String)
    (logs0 : List Effect) :
    (build_tool_fallback env toolName toolPath bc out logs0).1
      = (env.runCmdOk bc && env.pathExists (pathJoin toolPath out)) := by
  unfold build_tool_fallback WinToolsUpdater.run_cmd
  by_cases h1 : env.runCmdOk bc
  · by_cases h2 : env.pathExists (pathJoin toolPath out)
    · simp [h1, h2]
    · simp [h1, h2]
  · simp [h1]

theorem build_tool_fallback_runs (env : CoreEnv)
    (toolName toolPath : String) (bc : List String) (out : String)
    (logs0 : List Effect) :
    Effect.runCmd bc toolPath
      ∈ (build_tool_fallback env toolName toolPath bc out logs0).2 := by
  unfold build_tool_fallback WinToolsUpdater.run_cmd
  by_cases h1 : env.runCmdOk bc
  · by_cases h2 : env.pathExists (pathJoin toolPath out)
    · simp [h1, h2]
    · simp [h1, h2]
  · simp [h1]

theorem build_tool_fallback_trace (env : CoreEnv)
    (toolName toolPath : String) (bc : List String) (out : String)
    (logs0 : List Effect) (hl : ∀ e ∈ logs0, isBackendRun e = false) :
    ∀ e ∈ (build_tool_fallback env toolName toolPath bc out logs0).2,
      isBackendRun e = false := by
  unfold build_tool_fallback WinToolsUpdater.run_cmd
  by_cases h1 : env.runCmdOk bc
  · by_cases h2 : env.pathExists (pathJoin toolPath out)
    · simp only [h1, h2]
      intro e he
      simp at he
      rcases he with he | he | he | he | he
      · exact hl e he
      all_goals simp [he, isBackendRun]
    · simp only [h1, h2]
      intro e he
      simp at he
      rcases he with he | he | he | he
      · exact hl e he
      all_goals simp [he, isBackendRun]
  · simp only [h1]
    intro e he
    simp at he
    rcases he with he | he | he
    · exact hl e he
    all_goals simp [he, isBackendRun]

/-- C5: with no resolvable build backend, the build stage is the direct
invocation of the configured build command, succeeding exactly when the
command exits zero and the declared output path exists verbatim under the
working copy; the trace contains no structured backend build, and the
stage outcome depends on nothing of the host beyond the command's exit
status and the existence of that one exact path (so no recursive search
can influence it). -/
theorem c5_direct_fallback (env : CoreEnv) (toolName : String)
    (cfg : ToolDict) (toolPath : String) (bc : List String) (out : String)
    (hbc : cfg.build_cmd = some bc) (hout : cfg.output = some out)
    (hnb : get_builder (cfg.requires.getD "msbuild") = none) :
    ((build_tool env toolName cfg toolPath).1
      = (env.runCmdOk bc && env.pathExists (pathJoin toolPath out))) ∧
    (Effect.runCmd bc toolPath ∈ (build_tool env toolName cfg toolPath).2) ∧
    (∀ e ∈ (build_tool env toolName cfg toolPath).2,
      isBackendRun e = false) ∧
    (∀ env2 : CoreEnv, env2.runCmdOk bc = env.runCmdOk bc →
      env2.pathExists (pathJoin toolPath out)
        = env.pathExists (pathJoin toolPath out) →
      (build_tool env2 toolName cfg toolPath).1
        = (build_tool env toolName cfg toolPath).1) := by
  have hbc2 : cfg.build_cmd.getD [] = bc := by rw [hbc]; rfl
  have hout2 : cfg.output.getD "" = out := by rw [hout]; rfl
  have key : ∀ e : CoreEnv, (build_tool e toolName cfg toolPath).1
      = (e.runCmdOk bc && e.pathExists (pathJoin toolPath out)) := by
    intro e
    rw [build_tool_no_builder e toolName cfg toolPath hnb,
      build_tool_fallback_fst]
    rw [hbc, hout]
    rfl
  refine ⟨key env, ?_, ?_, ?_⟩
  · rw [build_tool_no_builder env toolName cfg toolPath hnb, hbc2, hout2]
    exact build_tool_fallback_runs env toolName toolPath bc out _
  · rw [build_tool_no_builder env toolName cfg toolPath hnb]
    refine build_tool_fallback_trace env toolName toolPath _ _ _ ?_
    intro e he
    simp at he
    simp [he, isBackendRun]
  · intro env2 h1 h2
    rw [key env2, key env, h1, h2]

/-- Catalog entry shape for a tool requiring `cmake`, a declared
`BuildSystem` kind with no registered builder class. -/
def cmakeCfg : ToolDict :=
  { repo := some "https://x/c.git"
    build_cmd := some ["cmake", "."]
    output := some "out.bin"
    requires := some "cmake" }

theorem c5_direct_fallback_witness :
    ((build_tool demoEnv "castle" cmakeCfg "/build/castle").1
      = (demoEnv.runCmdOk ["cmake", "."]
          && demoEnv.pathExists (pathJoin "/build/castle" "out.bin"))) ∧
    (Effect.runCmd ["cmake", "."] "/build/castle"
      ∈ (build_tool demoEnv "castle" cmakeCfg "/build/castle").2) ∧
    (∀ e ∈ (build_tool demoEnv "castle" cmakeCfg "/build/castle").2,
      isBackendRun e = false) ∧
    (∀ env2 : CoreEnv,
      env2.runCmdOk ["cmake", "."] = demoEnv.runCmdOk ["cmake", "."] →
      env2.pathExists (pathJoin "/build/castle" "out.bin")
        = demoEnv.pathExists (pathJoin "/build/castle" "out.bin") →
      (build_tool env2 "castle" cmakeCfg "/build/castle").1
        = (build_tool demoEnv "castle" cmakeCfg "/build/castle").1) :=
  c5_direct_fallback demoEnv "castle" cmakeCfg "/build/castle"
    ["cmake", "."] "out.bin" rfl rfl (by decide)

/-- C10: any requirement whose lowercase form is neither `msbuild` nor
`dotnet` — in particular the declared `BuildSystem` kinds `cmake`, `make`
and `custom` — resolves to no builder, so such a tool is always built
through the direct-invocation fallback and its trace never contains a
structured backend build. -/
theorem c10_no_backend_for_other_kinds :
    (∀ s : String, lowerCodes (strCodes s) ≠ strCodes "msbuild" →
      lowerCodes (strCodes s) ≠ strCodes "dotnet" →
      get_builder s = none) ∧
    (get_builder "cmake" = none ∧ get_builder "make" = none ∧
      get_builder "custom" = none) ∧
    (BuildSystem.value .cmake = "cmake" ∧ BuildSystem.value .make = "make" ∧
      BuildSystem.value .custom = "custom") ∧
    (∀ (env : CoreEnv) (toolName : String) (cfg : ToolDict)
      (toolPath : String),
      get_builder (cfg.requires.getD "msbuild") = none →
      ∀ e ∈ (build_tool env toolName cfg toolPath).2,
        isBackendRun e = false) := by
  refine ⟨?_, by decide, by decide, ?_⟩
  · intro s h1 h2
    simp [get_builder, BuilderFactory.get_for_tool, requiresMapping, h1, h2]
  · intro env toolName cfg toolPath hnb
    rw [build_tool_no_builder env toolName cfg toolPath hnb]
    refine build_tool_fallback_trace env toolName toolPath _ _ _ ?_
    intro e he
    simp at he
    simp [he, isBackendRun]

theorem c10_no_backend_for_other_kinds_witness :
    get_builder "CMake" = none ∧
    ∀ e ∈ (build_tool demoEnv "castle2" cmakeCfg "/build/castle2").2,
      isBackendRun e = false :=
  ⟨c10_no_backend_for_other_kinds.1 "CMake" (by decide) (by decide),
   c10_no_backend_for_other_kinds.2.2.2 demoEnv "castle2" cmakeCfg
     "/build/castle2" (by decide)⟩
